import Mathlib

/-!
# Verification of `sndatasets` loaders (`sndatasets/loaders.py`)

Shallow embedding of the four dataset loaders `load_kowalski08`, `load_hamuy96`,
`load_krisciunas` and `load_csp`.  Table values that the Python code treats as
floats parsed from fixed-format text files are embedded as rationals (`ℚ`);
derived quantities that involve transcendental functions (fluxes, flux errors,
combined magnitude errors) live in `ℝ`.  Tables are lists of structure values,
one structure field per column.

The helper functions `mag_to_flux`, `jd_to_mjd` and `pivot_table` are imported
by `loaders.py` from a `utils` module that is not part of the sources at hand;
they are modelled from the specification, as marked in their doc comments.
-/

namespace Sndatasets

/-- Modelled from the spec: `jd_to_mjd` from the `utils` module (not in the
sources). "MJD: Modified Julian Date, `JD - 2400000.5`." -/
def jd_to_mjd (jd : ℚ) : ℚ := jd - 2400000.5

/-- Modelled from the spec: `mag_to_flux` from the `utils` module (not in the
sources). "converts magnitude + zeropoint to flux/flux-error using the standard
`flux = 10^(-0.4*(mag-zp))`, `fluxerr = flux * ln(10)/2.5 * mag_err` relation".
Returns the pair `(flux, fluxerr)`. -/
noncomputable def mag_to_flux (mag magerr zp : ℝ) : ℝ × ℝ :=
  let flux : ℝ := (10 : ℝ) ^ (-(0.4) * (mag - zp))
  (flux, flux * Real.log 10 / 2.5 * magerr)

/-- A row of a wide-format table fed to the pivot: the non-band columns
(`payload`) together with the named per-band `(mag, mag_err)` cell pairs.
A `none` cell is an absent source cell. -/
structure WideRow (α : Type) where
  payload : α
  cells : List (String × Option (ℚ × ℝ))

/-- A row of the long-format table produced by the pivot: the carried non-band
columns, the band name, and the band's magnitude and magnitude error. -/
structure LongRow (α : Type) where
  payload : α
  band : String
  mag : ℚ
  magerr : ℝ

/-- Modelled from the spec: `pivot_table` from the `utils` module (not in the
sources). "Reshapes a wide table with separate columns per band (e.g., `Bmag`,
`Vmag`, …) into a long table with one row per (original-row, band) pair,
carrying the band name and its value/error into two new columns", "dropping
combinations where the source cell was absent". -/
def pivot_table {α : Type} (rows : List (WideRow α)) : List (LongRow α) :=
  rows.flatMap fun r =>
    r.cells.filterMap fun c => c.2.map fun v => ⟨r.payload, c.1, v.1, v.2⟩

/-- One row of a loader's output light-curve table:
`(time, band, flux, fluxerr, zp, zpsys)`. -/
structure ObsRow where
  time : ℚ
  band : String
  flux : ℝ
  fluxerr : ℝ
  zp : ℚ
  zpsys : String

/-- A light-curve table's metadata record
(`name`, `dataset`, `z_helio`, `ra`, `dec`). -/
structure SNMeta where
  name : String
  dataset : String
  z_helio : ℚ
  ra : ℚ
  dec : ℚ

/-! ## `load_kowalski08` (loaders.py lines 28-77) -/

/-- The non-band columns of Kowalski table 10 carried through the pivot:
supernova name `SN`, Julian date `JD` and telescope `Tel`. -/
structure SNJDTel where
  sn : String
  jd : ℚ
  tel : String

/-- A row of Kowalski et al. 2008 table 10 after `data.filled(0.)`
(line 46): masked magnitude/error cells already hold `0`. -/
structure K08Raw where
  sn : String
  jd : ℚ
  tel : String
  bmag : ℚ
  e_bmag : ℝ
  vmag : ℚ
  e_vmag : ℝ
  rmag : ℚ
  e_rmag : ℝ
  imag : ℚ
  e_imag : ℝ

/-- Wide-table view of a Kowalski row, with cell columns `{}mag`, `e_{}mag`
for bands `B`, `V`, `R`, `I` (line 48-49). After `filled(0.)` no cell is
absent. -/
def k08_wide (r : K08Raw) : WideRow SNJDTel :=
  ⟨⟨r.sn, r.jd, r.tel⟩,
   [("B", some (r.bmag, r.e_bmag)), ("V", some (r.vmag, r.e_vmag)),
    ("R", some (r.rmag, r.e_rmag)), ("I", some (r.imag, r.e_imag))]⟩

/-- Line 50: `data = data[data['mag'] != 0.]` applied to the pivoted table. -/
def k08_filtered (data : List K08Raw) : List (LongRow SNJDTel) :=
  (pivot_table (data.map k08_wide)).filter fun r => decide (r.mag ≠ 0)

/-- Lines 53-54: join telescope and band into one column,
`band = Tel.replace(' ', '_') + '_' + band`. -/
def k08_banded (data : List K08Raw) : List (LongRow SNJDTel) :=
  (k08_filtered data).map fun r =>
    { r with band := (r.payload.tel.replace " " "_") ++ "_" ++ r.band }

/-- Line 61: `sndata = data[data['SN'] == name]`. -/
def k08_sndata (data : List K08Raw) (name : String) : List (LongRow SNJDTel) :=
  (k08_banded data).filter fun r => r.payload.sn == name

/-- Lines 67-74: per-supernova table assembly of `load_kowalski08`:
`zp = 29`, `zpsys = 'vega'` on every row, `flux, fluxerr = mag_to_flux(...)`,
`time = jd_to_mjd(JD)`. -/
noncomputable def k08_table (data : List K08Raw) (name : String) : List ObsRow :=
  (k08_sndata data name).map fun r =>
    let fe := mag_to_flux (r.mag : ℝ) r.magerr ((29 : ℚ) : ℝ)
    { time := jd_to_mjd r.payload.jd, band := r.band,
      flux := fe.1, fluxerr := fe.2, zp := 29, zpsys := "vega" }

/-! ## `load_hamuy96` (loaders.py lines 79-157) -/

/-- A row of Hamuy et al. 1996 table 4 after `data.filled(0.)` (line 130). -/
structure H96Raw where
  sn : String
  hjd : ℚ
  bmag : ℚ
  e_bmag : ℝ
  vmag : ℚ
  e_vmag : ℝ
  rmag : ℚ
  e_rmag : ℝ
  imag : ℚ
  e_imag : ℝ

/-- The carried columns of Hamuy table 4: supernova name and heliocentric
Julian date. -/
structure SNHJD where
  sn : String
  hjd : ℚ

/-- Wide-table view of a Hamuy row, bands `B`, `V`, `R`, `I`
(lines 132-133). -/
def h96_wide (r : H96Raw) : WideRow SNHJD :=
  ⟨⟨r.sn, r.hjd⟩,
   [("B", some (r.bmag, r.e_bmag)), ("V", some (r.vmag, r.e_vmag)),
    ("R", some (r.rmag, r.e_rmag)), ("I", some (r.imag, r.e_imag))]⟩

/-- Line 134: `data = data[data['mag'] != 0.]` applied to the pivoted table. -/
def h96_filtered (data : List H96Raw) : List (LongRow SNHJD) :=
  (pivot_table (data.map h96_wide)).filter fun r => decide (r.mag ≠ 0)

/-- Line 145: `sndata = data[data['SN'] == name]`. -/
def h96_sndata (data : List H96Raw) (name : String) : List (LongRow SNHJD) :=
  (h96_filtered data).filter fun r => r.payload.sn == name

/-- Lines 146-155: per-supernova table assembly of `load_hamuy96`:
`time = jd_to_mjd(HJD)`, `band = 'bessell' + band.lower()`, `zp = 29`,
`zpsys = 'vega'`, `flux, fluxerr = mag_to_flux(...)`. -/
noncomputable def h96_table (data : List H96Raw) (name : String) : List ObsRow :=
  (h96_sndata data name).map fun r =>
    let fe := mag_to_flux (r.mag : ℝ) r.magerr ((29 : ℚ) : ℝ)
    { time := jd_to_mjd r.payload.hjd, band := "bessell" ++ r.band.toLower,
      flux := fe.1, fluxerr := fe.2, zp := 29, zpsys := "vega" }

/-! ## `load_krisciunas` (loaders.py lines 160-251) -/

/-- A row of a Krisciunas 2000 fixed-width table as parsed (lines 206-210):
`time` plus the V magnitude and the colour indices `b-v`, `v-r`, `v-i` with
their errors.  A masked cell is `none`. -/
structure KrisRaw where
  time : ℚ
  v : Option ℚ
  v_err : Option ℚ
  bv : Option ℚ
  bv_err : Option ℚ
  vr : Option ℚ
  vr_err : Option ℚ
  vi : Option ℚ
  vi_err : Option ℚ

/-- `data.filled(-100.)` (lines 223-224) on a magnitude cell: a masked value
becomes `-100`. -/
def kris_fillQ (x : Option ℚ) : ℚ := x.getD (-100)

/-- `data.filled(-100.)` on a real-valued error cell. -/
noncomputable def kris_fillR (x : Option ℝ) : ℝ := x.getD (-100)

/-- Lines 212-224 and 226-227: derived magnitude columns
`vmag = v`, `bmag = b-v + v`, `rmag = v - v-r`, `imag = v - v-i` with errors
`vmag_err = v_err` and `sqrt(colour_err^2 + v_err^2)` for the others
(masked cells propagate, then `filled(-100.)`), viewed as the wide table
pivoted over bands `b`, `v`, `r`, `i` with columns `{}mag`, `{}mag_err`.
The carried payload is the `time` column. -/
noncomputable def kris_wide (r : KrisRaw) : WideRow ℚ :=
  ⟨r.time,
   [("b", some (kris_fillQ (r.bv.bind fun a => r.v.map fun b => a + b),
                kris_fillR (r.bv_err.bind fun a => r.v_err.map fun b =>
                  Real.sqrt ((a : ℝ) ^ 2 + (b : ℝ) ^ 2)))),
    ("v", some (kris_fillQ r.v, kris_fillR (r.v_err.map fun e => (e : ℝ)))),
    ("r", some (kris_fillQ (r.v.bind fun a => r.vr.map fun b => a - b),
                kris_fillR (r.vr_err.bind fun a => r.v_err.map fun b =>
                  Real.sqrt ((a : ℝ) ^ 2 + (b : ℝ) ^ 2)))),
    ("i", some (kris_fillQ (r.v.bind fun a => r.vi.map fun b => a - b),
                kris_fillR (r.vi_err.bind fun a => r.v_err.map fun b =>
                  Real.sqrt ((a : ℝ) ^ 2 + (b : ℝ) ^ 2))))]⟩

/-- Line 232: `data = data[data['mag'] != -100.]` applied to the pivoted
table. -/
noncomputable def kris_filtered (data : List KrisRaw) : List (LongRow ℚ) :=
  (pivot_table (data.map kris_wide)).filter fun r => decide (r.mag ≠ -100)

/-- Line 240: `time = data['time'] + 2451000.0`. -/
def kris_time (t : ℚ) : ℚ := t + 2451000.0

/-- Lines 240-249: table assembly of `load_krisciunas` for one file (one
supernova): `time = data['time'] + 2451000.0`, `band = 'bessell' + band`,
`zp = 29`, `zpsys = 'vega'`, `flux, fluxerr = mag_to_flux(...)`. -/
noncomputable def kris_table (data : List KrisRaw) : List ObsRow :=
  (kris_filtered data).map fun r =>
    let fe := mag_to_flux (r.mag : ℝ) r.magerr ((29 : ℚ) : ℝ)
    { time := kris_time r.payload, band := "bessell" ++ r.band,
      flux := fe.1, fluxerr := fe.2, zp := 29, zpsys := "vega" }

/-- Lines 234-238: metadata assembly of `load_krisciunas`.  The `positions`
argument stands for the catalog downloaded by `download_sn_positions`
(line 196); the code never reads it and hard-codes `ra = 0.`, `dec = 0.`
(marked `TODO: fill in ra/dec from file`). -/
def kris_meta_of (positions : String → ℚ × ℚ) (name : String) (z : ℚ) :
    SNMeta :=
  ⟨name, "krisciunas", z, 0, 0⟩

/-! ## `load_csp` (loaders.py lines 253-319) -/

/-- A row of the joined CSP tables 4 and 5 after `data.filled(0.)`
(lines 267-271): supernova name, Julian date, telescope, and the ten
magnitude/error column pairs of bands `u g r i B V Y J H K`. -/
structure CspRaw where
  sn : String
  jd : ℚ
  tel : String
  umag : ℚ
  e_umag : ℝ
  gmag : ℚ
  e_gmag : ℝ
  rmag : ℚ
  e_rmag : ℝ
  imag : ℚ
  e_imag : ℝ
  bmag : ℚ
  e_bmag : ℝ
  vmag : ℚ
  e_vmag : ℝ
  ymag : ℚ
  e_ymag : ℝ
  jmag : ℚ
  e_jmag : ℝ
  hmag : ℚ
  e_hmag : ℝ
  kmag : ℚ
  e_kmag : ℝ

/-- Wide-table view of a CSP row, bands `u g r i B V Y J H K` with columns
`{}mag`, `e_{}mag` (lines 273-275). -/
def csp_wide (r : CspRaw) : WideRow SNJDTel :=
  ⟨⟨r.sn, r.jd, r.tel⟩,
   [("u", some (r.umag, r.e_umag)), ("g", some (r.gmag, r.e_gmag)),
    ("r", some (r.rmag, r.e_rmag)), ("i", some (r.imag, r.e_imag)),
    ("B", some (r.bmag, r.e_bmag)), ("V", some (r.vmag, r.e_vmag)),
    ("Y", some (r.ymag, r.e_ymag)), ("J", some (r.jmag, r.e_jmag)),
    ("H", some (r.hmag, r.e_hmag)), ("K", some (r.kmag, r.e_kmag))]⟩

/-- Line 277: `data = data[data['mag'] != 0]` applied to the pivoted table. -/
def csp_filtered (data : List CspRaw) : List (LongRow SNJDTel) :=
  (pivot_table (data.map csp_wide)).filter fun r => decide (r.mag ≠ 0)

/-- Lines 279-284: filter-name construction,
`'csp' + b` for optical bands, `'csp' + b + t[0]` for the infrared bands
`Y`, `J`, `H` (with `t[0]` the telescope name's first character), then
lower-cased. -/
def csp_filtname (b tel : String) : String :=
  (if b ∈ (["Y", "J", "H"] : List String) then
     "csp" ++ b ++ String.singleton tel.front
   else "csp" ++ b).toLower

/-- Lines 287-295, function `_which_V`.  In the Python source the
`return 'cspv' + ans` statement is indented inside the `else` branch, so only
the branch `53748 ≤ mjd ≤ 53761` returns a string; the two other branches
assign `ans` (`'3014'`, `'9844'`) and fall off the end of the function,
returning `None`, embedded as `none`. -/
def which_V (mjd : ℚ) : Option String :=
  if mjd < 53748 then none
  else if mjd > 53761 then none
  else some ("cspv" ++ "3009")

/-- Lines 297-298: `_which_V(jd_to_mjd(t)) if 'v' in b else b`, applied to a
filter-name `f` and the row's `JD`.  Python's substring test `'v' in b` for
the one-character pattern `'v'` is membership of the character `v` in `b`.
The result is `Option String` because `_which_V` may return `None`. -/
def csp_filter_final (f : String) (jd : ℚ) : Option String :=
  if 'v' ∈ f.data then which_V (jd_to_mjd jd) else some f

/-- A row of the CSP long table after the `filter` column is built: name,
Julian date, filter name (possibly `None`), magnitude and error. -/
structure CspLongRow where
  sn : String
  jd : ℚ
  filt : Option String
  mag : ℚ
  magerr : ℝ

/-- Lines 279-298 combined: the CSP long table with its final `filter`
column. -/
def csp_data (data : List CspRaw) : List CspLongRow :=
  (csp_filtered data).map fun r =>
    ⟨r.payload.sn, r.payload.jd,
     csp_filter_final (csp_filtname r.band r.payload.tel) r.payload.jd,
     r.mag, r.magerr⟩

/-- Line 304: `sndata = data[data['SN'] == name]`. -/
def csp_sndata (d : List CspLongRow) (name : String) : List CspLongRow :=
  d.filter fun r => r.sn == name

/-- Lines 311-312: `zp = [magsys.offsets[...] for b in data['filter']]`.
`offset` stands for the `sncosmo` magnitude-system lookup (external); the
comprehension runs over the `filter` column of the FULL table `data`, not
over `sndata`. -/
def csp_zp (offset : Option String → ℝ) (d : List CspLongRow) : List ℝ :=
  d.map fun r => offset r.filt

/-! ## Failure propagation (loaders.py lines 34-45 and 257-268)

Downloading (`download_file`) and fixed-format parsing (`ascii.read`) are
external collaborators; each either yields a value or raises.  They are
modelled as `Except`-valued inputs.  The loader bodies below mirror the
source's straight-line statement order; the source contains no `try`/`except`
and no retry, so each step's failure propagates unchanged. -/

/-- Lines 34-45 of `load_kowalski08`: download `ReadMe`, `table1.dat`,
`table10.dat`, then parse the metadata table and the photometry table, then
assemble the per-supernova mapping. -/
def load_kowalski08_E {ε α μ δ σ : Type}
    (readme table1 table10 : Except ε α)
    (parseMeta : α → α → Except ε μ) (parseData : α → α → Except ε δ)
    (assemble : μ → δ → σ) : Except ε σ := do
  let r ← readme
  let t1 ← table1
  let t10 ← table10
  let m ← parseMeta r t1
  let d ← parseData r t10
  pure (assemble m d)

/-- Lines 88-89 and 129 of `load_hamuy96`: download `ReadMe` and
`table4.dat`, then parse the photometry table (the metadata is hard-coded),
then assemble the per-supernova mapping. -/
def load_hamuy96_E {ε α δ σ : Type}
    (readme table4 : Except ε α)
    (parseData : α → α → Except ε δ) (assemble : δ → σ) : Except ε σ := do
  let r ← readme
  let t4 ← table4
  let d ← parseData r t4
  pure (assemble d)

/-- Lines 196-210 of `load_krisciunas`: download the positions catalog, then
read and parse the three bundled fixed-width files `table2.txt`,
`table4.txt`, `table6.txt` in loop order, then assemble the per-supernova
mapping. -/
def load_krisciunas_E {ε π δ σ : Type} (positions : Except ε π)
    (table2 table4 table6 : Except ε δ)
    (assemble : δ → δ → δ → σ) : Except ε σ := do
  let _ ← positions
  let d2 ← table2
  let d4 ← table4
  let d6 ← table6
  pure (assemble d2 d4 d6)

/-- Lines 257-268 of `load_csp`: download `ReadMe`, `table1.dat`,
`table4.dat`, `table5.dat`, then parse the metadata, optical and infrared
tables, then assemble the per-supernova mapping. -/
def load_csp_E {ε α μ δ σ : Type}
    (readme table1 table4 table5 : Except ε α)
    (parseMeta : α → α → Except ε μ) (parseData : α → α → Except ε δ)
    (assemble : μ → δ → δ → σ) : Except ε σ := do
  let r ← readme
  let t1 ← table1
  let t4 ← table4
  let t5 ← table5
  let m ← parseMeta r t1
  let o ← parseData r t4
  let i ← parseData r t5
  pure (assemble m o i)

/-! ## Concrete sample inputs -/

/-- A sample Kowalski photometry row (after `filled(0.)`): supernova 1994S,
one KAIT epoch with magnitudes 5, 6, 7, 8 in B, V, R, I; the B error cell was
masked and is filled with `0`. -/
def k08_demo : K08Raw := ⟨"1994S", 2449432, "KAIT", 5, 0, 6, 1, 7, 1, 8, 1⟩

/-- The output row of `k08_table [k08_demo] "1994S"` for one band. -/
noncomputable def k08_demo_row (band : String) (mag : ℚ) (e : ℝ) : ObsRow :=
  { time := jd_to_mjd 2449432, band := band,
    flux := (mag_to_flux (mag : ℝ) e ((29 : ℚ) : ℝ)).1,
    fluxerr := (mag_to_flux (mag : ℝ) e ((29 : ℚ) : ℝ)).2,
    zp := 29, zpsys := "vega" }

/-- The joined telescope-band name of the sample row, left as the source
expression (`String.replace` recurses by well-founded recursion and is kept
unevaluated). -/
def k08_demo_band (b : String) : String := "KAIT".replace " " "_" ++ "_" ++ b

/-- A sample CSP long table holding one row each of two supernovae. -/
def csp_demo_rows : List CspLongRow :=
  [⟨"2004ef", 2453264, some "cspb", 17, 1⟩,
   ⟨"2005A", 2453432, some "cspb", 16, 1⟩]

/-- A sample wide table with two band columns `B`, `V` and two rows; the `V`
cell of the first row is absent. -/
def pivot_demo_rows : List (WideRow String) :=
  [⟨"r1", [("B", some (17, 1)), ("V", none)]⟩,
   ⟨"r2", [("B", some (18, 1)), ("V", some (18.5, 1))]⟩]

/-! ## Helper lemmas -/

lemma mag_to_flux_fst (m e z : ℝ) :
    (mag_to_flux m e z).1 = (10 : ℝ) ^ (-(0.4) * (m - z)) := rfl

lemma mag_to_flux_snd (m e z : ℝ) :
    (mag_to_flux m e z).2 =
      (10 : ℝ) ^ (-(0.4) * (m - z)) * Real.log 10 / 2.5 * e := rfl

lemma mag_to_flux_fst_pos (m e z : ℝ) : 0 < (mag_to_flux m e z).1 := by
  rw [mag_to_flux_fst]
  exact Real.rpow_pos_of_pos (by norm_num) _

lemma k08_demo_eval :
    k08_table [k08_demo] "1994S" =
      [k08_demo_row (k08_demo_band "B") 5 0, k08_demo_row (k08_demo_band "V") 6 1,
       k08_demo_row (k08_demo_band "R") 7 1, k08_demo_row (k08_demo_band "I") 8 1] := by
  simp only [k08_table, k08_sndata, k08_banded, k08_filtered, pivot_table,
    k08_wide, k08_demo, k08_demo_row, k08_demo_band, List.map_cons,
    List.map_nil, List.flatMap_cons, List.flatMap_nil, List.filterMap_cons,
    Option.map_some, List.filter_cons, List.append_nil, jd_to_mjd]
  norm_num

lemma k08_demo_memB :
    k08_demo_row (k08_demo_band "B") 5 0 ∈ k08_table [k08_demo] "1994S" := by
  rw [k08_demo_eval]
  exact List.mem_cons_self _ _

lemma pivot_table_length_le {α : Type} (k : ℕ) (rows : List (WideRow α))
    (h : ∀ r ∈ rows, r.cells.length ≤ k) :
    (pivot_table rows).length ≤ k * rows.length := by
  induction rows with
  | nil => simp [pivot_table]
  | cons r rs ih =>
    have h1 : (r.cells.filterMap fun c =>
        c.2.map fun v => LongRow.mk r.payload c.1 v.1 v.2).length ≤ k :=
      le_trans (List.length_filterMap_le _ _) (h r (List.mem_cons_self r rs))
    have h2 := ih fun x hx => h x (List.mem_cons_of_mem _ hx)
    simp only [pivot_table, List.flatMap_cons, List.length_append,
      List.length_cons] at h2 ⊢
    calc (r.cells.filterMap fun c =>
            c.2.map fun v => LongRow.mk r.payload c.1 v.1 v.2).length +
          (rs.flatMap fun r => r.cells.filterMap fun c =>
            c.2.map fun v => LongRow.mk r.payload c.1 v.1 v.2).length
        ≤ k + k * rs.length := Nat.add_le_add h1 h2
      _ = k * (rs.length + 1) := by ring

lemma load_kowalski08_E_ok_iff {ε α μ δ σ : Type}
    (readme table1 table10 : Except ε α)
    (pm : α → α → Except ε μ) (pd : α → α → Except ε δ)
    (asm : μ → δ → σ) (s : σ) :
    load_kowalski08_E readme table1 table10 pm pd asm = Except.ok s ↔
      ∃ r t1 t10 m d, readme = Except.ok r ∧ table1 = Except.ok t1 ∧
        table10 = Except.ok t10 ∧ pm r t1 = Except.ok m ∧
        pd r t10 = Except.ok d ∧ s = asm m d := by
  rcases readme with er | r
  · simp [load_kowalski08_E, Bind.bind, Except.bind]
  rcases table1 with e1 | t1
  · simp [load_kowalski08_E, Bind.bind, Except.bind]
  rcases table10 with e0 | t10
  · simp [load_kowalski08_E, Bind.bind, Except.bind]
  rcases hpm : pm r t1 with em | m
  · simp [load_kowalski08_E, Bind.bind, Except.bind, hpm]
  rcases hpd : pd r t10 with ed | d
  · simp [load_kowalski08_E, Bind.bind, Except.bind, hpm, hpd]
  · simp [load_kowalski08_E, Bind.bind, Except.bind, Pure.pure, Except.pure,
      hpm, hpd, eq_comm]

lemma load_hamuy96_E_ok_iff {ε α δ σ : Type}
    (readme table4 : Except ε α) (parseData : α → α → Except ε δ)
    (asm : δ → σ) (s : σ) :
    load_hamuy96_E readme table4 parseData asm = Except.ok s ↔
      ∃ r t d, readme = Except.ok r ∧ table4 = Except.ok t ∧
        parseData r t = Except.ok d ∧ s = asm d := by
  rcases readme with er | r
  · simp [load_hamuy96_E, Bind.bind, Except.bind]
  rcases table4 with e4 | t4
  · simp [load_hamuy96_E, Bind.bind, Except.bind]
  rcases hpd : parseData r t4 with ed | d
  · simp [load_hamuy96_E, Bind.bind, Except.bind, hpd]
  · simp [load_hamuy96_E, Bind.bind, Except.bind, Pure.pure, Except.pure,
      hpd, eq_comm]

lemma load_krisciunas_E_ok_iff {ε π δ σ : Type} (positions : Except ε π)
    (table2 table4 table6 : Except ε δ) (asm : δ → δ → δ → σ) (s : σ) :
    load_krisciunas_E positions table2 table4 table6 asm = Except.ok s ↔
      ∃ p d2 d4 d6, positions = Except.ok p ∧ table2 = Except.ok d2 ∧
        table4 = Except.ok d4 ∧ table6 = Except.ok d6 ∧
        s = asm d2 d4 d6 := by
  rcases positions with ep | p
  · simp [load_krisciunas_E, Bind.bind, Except.bind]
  rcases table2 with e2 | d2
  · simp [load_krisciunas_E, Bind.bind, Except.bind]
  rcases table4 with e4 | d4
  · simp [load_krisciunas_E, Bind.bind, Except.bind]
  rcases table6 with e6 | d6
  · simp [load_krisciunas_E, Bind.bind, Except.bind]
  · simp [load_krisciunas_E, Bind.bind, Except.bind, Pure.pure, Except.pure,
      eq_comm]

lemma load_csp_E_ok_iff {ε α μ δ σ : Type}
    (readme table1 table4 table5 : Except ε α)
    (pm : α → α → Except ε μ) (pd : α → α → Except ε δ)
    (asm : μ → δ → δ → σ) (s : σ) :
    load_csp_E readme table1 table4 table5 pm pd asm = Except.ok s ↔
      ∃ r t1 t4 t5 m o i, readme = Except.ok r ∧ table1 = Except.ok t1 ∧
        table4 = Except.ok t4 ∧ table5 = Except.ok t5 ∧
        pm r t1 = Except.ok m ∧ pd r t4 = Except.ok o ∧
        pd r t5 = Except.ok i ∧ s = asm m o i := by
  rcases readme with er | r
  · simp [load_csp_E, Bind.bind, Except.bind]
  rcases table1 with e1 | t1
  · simp [load_csp_E, Bind.bind, Except.bind]
  rcases table4 with e4 | t4
  · simp [load_csp_E, Bind.bind, Except.bind]
  rcases table5 with e5 | t5
  · simp [load_csp_E, Bind.bind, Except.bind]
  rcases hpm : pm r t1 with em | m
  · simp [load_csp_E, Bind.bind, Except.bind, hpm]
  rcases hpo : pd r t4 with eo | o
  · simp [load_csp_E, Bind.bind, Except.bind, hpm, hpo]
  rcases hpi : pd r t5 with ei | i
  · simp [load_csp_E, Bind.bind, Except.bind, hpm, hpo, hpi]
  · simp [load_csp_E, Bind.bind, Except.bind, Pure.pure, Except.pure,
      hpm, hpo, hpi, eq_comm]

/-! ## Claims -/

/-- C1: evaluation of `load_csp`'s zeropoint construction (lines 310-313) at a
CSP long table holding two supernovae with one row each.  The list of
zeropoints that the code passes to `mag_to_flux` for supernova 2004ef is built
from the `filter` column of the full table and has 2 entries, while 2004ef's
own table (`sndata`) has 1 row — contradicting the claim that the zeropoint
sequence has exactly one entry per row of that supernova's table. -/
theorem C1_csp_zp_per_full_table :
    (csp_zp (fun _ => 0) csp_demo_rows).length = 2 ∧
    (csp_sndata csp_demo_rows "2004ef").length = 1 ∧
    (csp_zp (fun _ => 0) csp_demo_rows).length ≠
      (csp_sndata csp_demo_rows "2004ef").length := by
  refine ⟨rfl, ?_, ?_⟩ <;> simp [csp_sndata, csp_demo_rows, csp_zp]

/-- C2: evaluation of `load_krisciunas`'s time construction (line 240) at the
table value `400.0`.  The code stores `400 + 2451000 = 2451400`, the full
source Julian Date, whereas the Modified Julian Date of that observation is
`jd_to_mjd 2451400 = 51399.5`; the stored time is not the source JD minus
2400000.5. -/
theorem C2_krisciunas_time_is_jd_not_mjd :
    kris_time 400 = 2451400 ∧ jd_to_mjd 2451400 = 51399.5 ∧
      kris_time 400 ≠ jd_to_mjd 2451400 := by
  refine ⟨?_, ?_, ?_⟩ <;> norm_num [kris_time, jd_to_mjd]

/-- C3: evaluation of `load_csp`'s V-band selection at concrete dates.  For a
V-band row observed at JD 2453000 (MJD 52999.5 < 53748) the final filter value
is `none` (Python `None`), because `_which_V`'s `return` statement sits inside
its `else` branch; only dates with 53748 ≤ MJD ≤ 53761 yield a string, and
even then always `'cspv3009'`.  The band column therefore is not always a
string, contrary to the claim. -/
theorem C3_csp_V_band_none :
    csp_filter_final "cspv" 2453000 = none ∧ which_V 53000 = none ∧
      which_V 53750 = some "cspv3009" ∧ which_V 53762 = none := by
  have h1 : jd_to_mjd 2453000 = 52999.5 := by norm_num [jd_to_mjd]
  have hv : 'v' ∈ "cspv".data := by decide
  refine ⟨?_, ?_, ?_, ?_⟩
  · simp only [csp_filter_final, if_pos hv, h1, which_V]
    norm_num
  · simp only [which_V]
    norm_num
  · simp only [which_V]
    norm_num
    decide
  · simp only [which_V]
    norm_num

/-- C6: evaluation of `load_krisciunas`'s metadata assembly (lines 234-238)
for supernova 1999aa.  Whatever positions catalog was downloaded, the output
metadata has `ra = 0` and `dec = 0` — the hard-coded placeholders (marked
`TODO` in the source) — rather than the coordinates parsed from the
downloaded positions file, contrary to the claim that no placeholder values
are substituted. -/
theorem C6_krisciunas_placeholder_coords :
    ∀ positions : String → ℚ × ℚ,
      (kris_meta_of positions "1999aa" 0.014443).ra = 0 ∧
      (kris_meta_of positions "1999aa" 0.014443).dec = 0 :=
  fun _ => ⟨rfl, rfl⟩

/-- C7: the magnitude-to-flux conversion is strictly antitone in magnitude for
any fixed zeropoint: if `m1 < m2` then the flux computed for `m1` is strictly
greater than the flux computed for `m2`. -/
theorem C7_mag_to_flux_strict_antitone (m1 m2 e1 e2 zp : ℝ) (h : m1 < m2) :
    (mag_to_flux m2 e2 zp).1 < (mag_to_flux m1 e1 zp).1 := by
  rw [mag_to_flux_fst, mag_to_flux_fst]
  rw [Real.rpow_lt_rpow_left_iff (by norm_num : (1 : ℝ) < 10)]
  nlinarith

/-- Witness for C7 at `m1 = 20`, `m2 = 21`, `zp = 29`. -/
theorem C7_witness :
    (20 : ℝ) < 21 ∧ (mag_to_flux 21 1 29).1 < (mag_to_flux 20 1 29).1 :=
  ⟨by norm_num, C7_mag_to_flux_strict_antitone 20 21 1 1 29 (by norm_num)⟩

/-- C4 (amended): the flux of every output row of the `load_kowalski08`,
`load_hamuy96` and `load_krisciunas` pipelines is strictly positive, and the
flux error produced by `mag_to_flux` is nonnegative whenever the row's
magnitude error is nonnegative, strictly positive whenever the magnitude
error is strictly positive, and `0` — not strictly positive — when the
magnitude error is `0` (as happens for a surviving row whose masked error
cell was filled with the sentinel `0`). -/
theorem C4_flux_pos_fluxerr_sign :
    (∀ m e zp : ℝ, 0 < (mag_to_flux m e zp).1 ∧
        (0 ≤ e → 0 ≤ (mag_to_flux m e zp).2) ∧
        (0 < e → 0 < (mag_to_flux m e zp).2) ∧
        (e = 0 → (mag_to_flux m e zp).2 = 0)) ∧
    (∀ (d : List K08Raw) (n : String), ∀ r ∈ k08_table d n, 0 < r.flux) ∧
    (∀ (d : List H96Raw) (n : String), ∀ r ∈ h96_table d n, 0 < r.flux) ∧
    (∀ d : List KrisRaw, ∀ r ∈ kris_table d, 0 < r.flux) := by
  have hlog : (0 : ℝ) < Real.log 10 := Real.log_pos (by norm_num)
  refine ⟨fun m e zp => ?_, ?_, ?_, ?_⟩
  · have hflux : (0 : ℝ) < (10 : ℝ) ^ (-(0.4) * (m - zp)) := by
      have := mag_to_flux_fst_pos m e zp
      rwa [mag_to_flux_fst] at this
    refine ⟨mag_to_flux_fst_pos m e zp, ?_, ?_, ?_⟩
    · intro he
      rw [mag_to_flux_snd]
      exact mul_nonneg (div_nonneg (mul_nonneg hflux.le hlog.le)
        (by norm_num)) he
    · intro he
      rw [mag_to_flux_snd]
      exact mul_pos (div_pos (mul_pos hflux hlog) (by norm_num)) he
    · intro he
      rw [mag_to_flux_snd, he, mul_zero]
  · intro d n r hr
    simp only [k08_table, List.mem_map] at hr
    obtain ⟨s, -, rfl⟩ := hr
    exact mag_to_flux_fst_pos (s.mag : ℝ) s.magerr ((29 : ℚ) : ℝ)
  · intro d n r hr
    simp only [h96_table, List.mem_map] at hr
    obtain ⟨s, -, rfl⟩ := hr
    exact mag_to_flux_fst_pos (s.mag : ℝ) s.magerr ((29 : ℚ) : ℝ)
  · intro d r hr
    simp only [kris_table, List.mem_map] at hr
    obtain ⟨s, -, rfl⟩ := hr
    exact mag_to_flux_fst_pos (s.mag : ℝ) s.magerr ((29 : ℚ) : ℝ)

/-- Witness for C4 at the sample Kowalski table `[k08_demo]` and at the
conversion of `mag = 20`, `mag_err = 1`, `zp = 29`. -/
theorem C4_witness :
    ((0 : ℝ) < 1 ∧ 0 < (mag_to_flux 20 1 29).2) ∧
    k08_demo_row (k08_demo_band "B") 5 0 ∈ k08_table [k08_demo] "1994S" ∧
    0 < (k08_demo_row (k08_demo_band "B") 5 0).flux :=
  ⟨⟨by norm_num, (C4_flux_pos_fluxerr_sign.1 20 1 29).2.2.1 (by norm_num)⟩,
   k08_demo_memB,
   C4_flux_pos_fluxerr_sign.2.1 [k08_demo] "1994S" _ k08_demo_memB⟩

/-- Counterexample to C4 as stated: in the output of the `load_kowalski08`
pipeline on the sample table `[k08_demo]` — whose B-band error cell was
masked and filled with `0` — the surviving B-band row has `fluxerr = 0`, so
not every output row has `fluxerr > 0`. -/
theorem C4_counterexample :
    ¬ ∀ r ∈ k08_table [k08_demo] "1994S", 0 < r.flux ∧ 0 < r.fluxerr := by
  intro h
  have h2 := (h _ k08_demo_memB).2
  have hz : (k08_demo_row (k08_demo_band "B") 5 0).fluxerr = 0 := by
    show (mag_to_flux _ _ _).2 = 0
    rw [mag_to_flux_snd, mul_zero]
  rw [hz] at h2
  exact lt_irrefl 0 h2

/-- C5: in each of the four loaders the sentinel filter runs before the
magnitude-to-flux conversion: every magnitude in the list handed to
`mag_to_flux` — Kowalski's and Hamuy's per-supernova selections, Krisciunas's
filtered table, CSP's per-supernova selection — differs from the format's
sentinel (`0` for kowalski08/hamuy96/csp, `-100` for krisciunas), so no unit
conversion is applied to a sentinel magnitude. -/
theorem C5_sentinel_filtered_before_conversion :
    ∀ (d1 : List K08Raw) (n1 : String) (d2 : List H96Raw) (n2 : String)
      (d3 : List KrisRaw) (d4 : List CspRaw) (n4 : String),
      (((k08_sndata d1 n1).map fun r => r.mag).all
        fun m => decide (m ≠ 0)) = true ∧
      (((h96_sndata d2 n2).map fun r => r.mag).all
        fun m => decide (m ≠ 0)) = true ∧
      (((kris_filtered d3).map fun r => r.mag).all
        fun m => decide (m ≠ -100)) = true ∧
      (((csp_sndata (csp_data d4) n4).map fun r => r.mag).all
        fun m => decide (m ≠ 0)) = true := by
  intro d1 n1 d2 n2 d3 d4 n4
  refine ⟨?_, ?_, ?_, ?_⟩
  · rw [List.all_eq_true]
    intro m hm
    rw [List.mem_map] at hm
    obtain ⟨r, hr, rfl⟩ := hm
    rw [decide_eq_true_eq]
    simp only [k08_sndata, List.mem_filter] at hr
    obtain ⟨hr, -⟩ := hr
    simp only [k08_banded, List.mem_map] at hr
    obtain ⟨s, hs, rfl⟩ := hr
    simp only [k08_filtered, List.mem_filter, decide_eq_true_eq] at hs
    exact hs.2
  · rw [List.all_eq_true]
    intro m hm
    rw [List.mem_map] at hm
    obtain ⟨r, hr, rfl⟩ := hm
    rw [decide_eq_true_eq]
    simp only [h96_sndata, List.mem_filter] at hr
    obtain ⟨hr, -⟩ := hr
    simp only [h96_filtered, List.mem_filter, decide_eq_true_eq] at hr
    exact hr.2
  · rw [List.all_eq_true]
    intro m hm
    rw [List.mem_map] at hm
    obtain ⟨r, hr, rfl⟩ := hm
    rw [decide_eq_true_eq]
    simp only [kris_filtered, List.mem_filter, decide_eq_true_eq] at hr
    exact hr.2
  · rw [List.all_eq_true]
    intro m hm
    rw [List.mem_map] at hm
    obtain ⟨r, hr, rfl⟩ := hm
    rw [decide_eq_true_eq]
    simp only [csp_sndata, List.mem_filter] at hr
    obtain ⟨hr, -⟩ := hr
    simp only [csp_data, List.mem_map] at hr
    obtain ⟨s, hs, rfl⟩ := hr
    simp only [csp_filtered, List.mem_filter, decide_eq_true_eq] at hs
    exact hs.2

/-- C8: pivoting a wide table whose rows all have the two band columns
`b1`, `b2` yields at most `2 * N` long rows, and every produced long row
carries the band label of a wide cell of some source row, with that cell's
value and error moved into the long row's value/error columns and the
source row's other columns carried unchanged. -/
theorem C8_pivot_bound_and_labels (α : Type) (b1 b2 : String)
    (rows : List (WideRow α))
    (h : ∀ r ∈ rows, r.cells.map Prod.fst = [b1, b2]) :
    (pivot_table rows).length ≤ 2 * rows.length ∧
    ∀ o ∈ pivot_table rows, ∃ src ∈ rows,
      o.payload = src.payload ∧
      (o.band, some (o.mag, o.magerr)) ∈ src.cells ∧
      (o.band = b1 ∨ o.band = b2) := by
  constructor
  · refine pivot_table_length_le 2 rows fun r hr => ?_
    have hlen := congrArg List.length (h r hr)
    simp only [List.length_map, List.length_cons, List.length_nil] at hlen
    omega
  · intro o ho
    simp only [pivot_table, List.mem_flatMap] at ho
    obtain ⟨src, hsrc, ho⟩ := ho
    rw [List.mem_filterMap] at ho
    obtain ⟨⟨cb, cv⟩, hc, hmap⟩ := ho
    cases cv with
    | none => simp at hmap
    | some v =>
      obtain ⟨v1, v2⟩ := v
      simp only [Option.map_some, Option.map_some', Option.some.injEq] at hmap
      subst hmap
      refine ⟨src, hsrc, rfl, hc, ?_⟩
      have hmem : cb ∈ src.cells.map Prod.fst := List.mem_map.mpr ⟨_, hc, rfl⟩
      rw [h src hsrc] at hmem
      simpa using hmem

/-- Witness for C8 at the sample wide table `pivot_demo_rows` (two rows, band
columns `B` and `V`, one absent cell). -/
theorem C8_witness :
    (∀ r ∈ pivot_demo_rows, r.cells.map Prod.fst = ["B", "V"]) ∧
    ((pivot_table pivot_demo_rows).length ≤ 2 * pivot_demo_rows.length ∧
     ∀ o ∈ pivot_table pivot_demo_rows, ∃ src ∈ pivot_demo_rows,
       o.payload = src.payload ∧
       (o.band, some (o.mag, o.magerr)) ∈ src.cells ∧
       (o.band = "B" ∨ o.band = "V")) := by
  have hyp : ∀ r ∈ pivot_demo_rows, r.cells.map Prod.fst = ["B", "V"] := by
    intro r hr
    simp only [pivot_demo_rows, List.mem_cons, List.not_mem_nil,
      or_false] at hr
    rcases hr with rfl | rfl <;> rfl
  exact ⟨hyp, C8_pivot_bound_and_labels String "B" "V" pivot_demo_rows hyp⟩

/-- C9: every loader — `load_kowalski08`, `load_hamuy96`, `load_krisciunas`
and `load_csp` — either returns the full mapping or propagates the first
failure unchanged: each yields a value exactly when every download and parse
step succeeded, and any failing download or parse makes the whole loader
return that very error — no retry, no caught error, no partial mapping. -/
theorem C9_failures_fatal_and_local :
    ∀ (ε α μ δ π σ : Type) (readme table1 table10 table4 table5 : Except ε α)
      (positions : Except ε π) (ktable2 ktable4 ktable6 : Except ε δ)
      (pm : α → α → Except ε μ) (pd : α → α → Except ε δ)
      (asmK : μ → δ → σ) (asmH : δ → σ) (asmR : δ → δ → δ → σ)
      (asmC : μ → δ → δ → σ) (e : ε) (a b c : α)
      (mv : μ) (pv : π) (dv : δ) (s : σ),
      (load_kowalski08_E readme table1 table10 pm pd asmK = Except.ok s ↔
        ∃ r t1 t10 m d, readme = Except.ok r ∧ table1 = Except.ok t1 ∧
          table10 = Except.ok t10 ∧ pm r t1 = Except.ok m ∧
          pd r t10 = Except.ok d ∧ s = asmK m d) ∧
      load_kowalski08_E (Except.error e) table1 table10 pm pd asmK =
        Except.error e ∧
      load_kowalski08_E (Except.ok a) (Except.error e) table10 pm pd asmK =
        Except.error e ∧
      load_kowalski08_E (Except.ok a) (Except.ok b) (Except.error e)
        pm pd asmK = Except.error e ∧
      load_kowalski08_E (Except.ok a) (Except.ok b) (Except.ok c)
        (fun _ _ => Except.error e) pd asmK = Except.error e ∧
      load_kowalski08_E (Except.ok a) (Except.ok b) (Except.ok c)
        (fun _ _ => Except.ok mv) (fun _ _ => Except.error e) asmK =
        Except.error e ∧
      (load_hamuy96_E readme table4 pd asmH = Except.ok s ↔
        ∃ r t d, readme = Except.ok r ∧ table4 = Except.ok t ∧
          pd r t = Except.ok d ∧ s = asmH d) ∧
      load_hamuy96_E (Except.error e) table4 pd asmH = Except.error e ∧
      load_hamuy96_E (Except.ok a) (Except.error e) pd asmH =
        Except.error e ∧
      load_hamuy96_E (Except.ok a) (Except.ok b)
        (fun _ _ => Except.error e) asmH = Except.error e ∧
      (load_krisciunas_E positions ktable2 ktable4 ktable6 asmR =
          Except.ok s ↔
        ∃ p d2 d4 d6, positions = Except.ok p ∧ ktable2 = Except.ok d2 ∧
          ktable4 = Except.ok d4 ∧ ktable6 = Except.ok d6 ∧
          s = asmR d2 d4 d6) ∧
      load_krisciunas_E (Except.error e : Except ε π) ktable2 ktable4
        ktable6 asmR = Except.error e ∧
      load_krisciunas_E (Except.ok pv) (Except.error e) ktable4 ktable6
        asmR = Except.error e ∧
      load_krisciunas_E (Except.ok pv) (Except.ok dv) (Except.error e)
        ktable6 asmR = Except.error e ∧
      load_krisciunas_E (Except.ok pv) (Except.ok dv) (Except.ok dv)
        (Except.error e) asmR = Except.error e ∧
      (load_csp_E readme table1 table4 table5 pm pd asmC = Except.ok s ↔
        ∃ r t1 t4 t5 m o i, readme = Except.ok r ∧ table1 = Except.ok t1 ∧
          table4 = Except.ok t4 ∧ table5 = Except.ok t5 ∧
          pm r t1 = Except.ok m ∧ pd r t4 = Except.ok o ∧
          pd r t5 = Except.ok i ∧ s = asmC m o i) ∧
      load_csp_E (Except.error e) table1 table4 table5 pm pd asmC =
        Except.error e ∧
      load_csp_E (Except.ok a) (Except.error e) table4 table5 pm pd asmC =
        Except.error e ∧
      load_csp_E (Except.ok a) (Except.ok b) (Except.error e) table5
        pm pd asmC = Except.error e ∧
      load_csp_E (Except.ok a) (Except.ok b) (Except.ok c) (Except.error e)
        pm pd asmC = Except.error e ∧
      load_csp_E (Except.ok a) (Except.ok b) (Except.ok c) (Except.ok c)
        (fun _ _ => Except.error e) pd asmC = Except.error e := by
  intro ε α μ δ π σ readme table1 table10 table4 table5 positions
    ktable2 ktable4 ktable6 pm pd asmK asmH asmR asmC e a b c mv pv dv s
  exact ⟨load_kowalski08_E_ok_iff readme table1 table10 pm pd asmK s,
    rfl, rfl, rfl, rfl, rfl,
    load_hamuy96_E_ok_iff readme table4 pd asmH s,
    rfl, rfl, rfl,
    load_krisciunas_E_ok_iff positions ktable2 ktable4 ktable6 asmR s,
    rfl, rfl, rfl, rfl,
    load_csp_E_ok_iff readme table1 table4 table5 pm pd asmC s,
    rfl, rfl, rfl, rfl, rfl⟩

/-- C10: every row of every table produced by the `load_kowalski08`,
`load_hamuy96` and `load_krisciunas` assemblies has zeropoint `zp = 29` and
zeropoint system `zpsys = 'vega'`, for any input data and supernova name. -/
theorem C10_constant_zp29_vega :
    ∀ (d1 : List K08Raw) (n1 : String) (d2 : List H96Raw) (n2 : String)
      (d3 : List KrisRaw),
      ((k08_table d1 n1).all
        fun r => decide (r.zp = 29 ∧ r.zpsys = "vega")) = true ∧
      ((h96_table d2 n2).all
        fun r => decide (r.zp = 29 ∧ r.zpsys = "vega")) = true ∧
      ((kris_table d3).all
        fun r => decide (r.zp = 29 ∧ r.zpsys = "vega")) = true := by
  intro d1 n1 d2 n2 d3
  refine ⟨?_, ?_, ?_⟩
  · rw [List.all_eq_true]
    intro r hr
    simp only [k08_table, List.mem_map] at hr
    obtain ⟨s, -, rfl⟩ := hr
    rw [decide_eq_true_eq]
    exact ⟨rfl, rfl⟩
  · rw [List.all_eq_true]
    intro r hr
    simp only [h96_table, List.mem_map] at hr
    obtain ⟨s, -, rfl⟩ := hr
    rw [decide_eq_true_eq]
    exact ⟨rfl, rfl⟩
  · rw [List.all_eq_true]
    intro r hr
    simp only [kris_table, List.mem_map] at hr
    obtain ⟨s, -, rfl⟩ := hr
    rw [decide_eq_true_eq]
    exact ⟨rfl, rfl⟩

end Sndatasets
